import Mathlib

/-!
Verification of the semester-scheduler core (`scheduler/engine/solver.py`,
`scheduler/data_access/staff_loader.py`) against its natural-language
specification.

The CP-SAT model built by `solve_schedule` is shallowly embedded: a candidate
solution is a record of boolean-valued decision functions (`work`, `assign`,
shift/role block markers), and each hard-constraint family emitted by the
source is a decidable proposition over a `ModelInput` (the validated static
data the model is built from) and a `Sol`.  A "returned feasible solution" is
one satisfying `SatisfiesHard`.

Modelling conventions:
* hour quantities (`target_hours`, `max_hours`, department hours) are modelled
  as natural numbers of hours, so the source's float-to-slot conversions
  `int(target_hours * 2)` / `int(round(max_hours * 2))` are exactly `2 * h`;
* Python's nonnegative-int arithmetic `max(0, a - b)` is natural subtraction;
* reified indicator variables that the source pins with a two-sided
  `only_enforce_if` pair (e.g. `works_today`, `is_4_slot_shift`,
  `has_2_slots`) are replaced by the condition they are pinned to;
* bounded deviation integer variables (`over_target`/`under_target` with
  domain [0,100], department over/under with domain [0,400]) are replaced by
  the equivalent range conditions on the tracked quantity;
* CSV cell values and favor multipliers (Python floats) are modelled as
  rationals, with `int(x)` as truncation toward zero and `round(x)` as
  round-half-to-even.
-/

/-! ### Calendar and configuration constants (`scheduler/config.py`) -/

/-- Source `FRONT_DESK_ROLE` from config.py. -/
def FRONT_DESK_ROLE : String := "front_desk"

/-- Source `MIN_SLOTS = 4` (2 hours minimum shift). -/
def MIN_SLOTS : ℕ := 4

/-- Source `MAX_SLOTS = 8` (4 hours maximum shift). -/
def MAX_SLOTS : ℕ := 8

/-- Source `FAVORED_MIN_SLOTS = 4`. -/
def FAVORED_MIN_SLOTS : ℕ := 4

/-- Source `FAVORED_MAX_SLOTS = 16`. -/
def FAVORED_MAX_SLOTS : ℕ := 16

/-- Source `TARGET_HARD_DELTA_HOURS = 5`. -/
def TARGET_HARD_DELTA_HOURS : ℕ := 5

/-- Source `UNIVERSAL_MAXIMUM_HOURS = 19` (solver.py line 699). -/
def UNIVERSAL_MAXIMUM_HOURS : ℕ := 19

/-- Source `TRAINING_MIN_SLOTS = TRAINING_MIN_HOURS * 2 = 2`. -/
def TRAINING_MIN_SLOTS : ℤ := 2

/-- Source `TRAINING_TARGET_FRACTION = 0.35`. -/
def TRAINING_TARGET_FRACTION : ℚ := 35 / 100

/-- Source `FAVORED_HOURS_BONUS_WEIGHT = 200` from config.py ("Bonus per half-hour
slot worked by favored employees"). -/
def FAVORED_HOURS_BONUS_WEIGHT : ℤ := 200

/-- The five weekday indices (source `days = DAY_NAMES`, reindexed 0..4). -/
def days : List ℕ := List.range 5

/-- The 18 half-hour slot indices (source `T = T_SLOTS = range(18)`). -/
def T : List ℕ := List.range 18

/-- Interpret a CP boolean as the integer value CP-SAT assigns it. -/
def b2i (b : Bool) : ℤ := if b then 1 else 0

/-! ### Exact counterparts of Python numeric primitives -/

/- The rational primitives are `@[irreducible]` upstream, which blocks
`decide` on concrete rational arithmetic; restore the default reducibility
for this file so concrete instances evaluate. -/
attribute [local semireducible] Rat.add Rat.mul Rat.sub Rat.inv

/-- Python `int(q)` on an exact rational: truncation toward zero. -/
def pyTrunc (q : ℚ) : ℤ := Int.tdiv q.num (q.den : ℤ)

/-- Floor of a rational (`q.den` is positive, so `fdiv` divides flooring). -/
def ratFloor (q : ℚ) : ℤ := Int.fdiv q.num (q.den : ℤ)

/-- Python `round(q)` on an exact rational: round half to even. -/
def pyRound (q : ℚ) : ℤ :=
  let f := ratFloor q
  let r := q - (f : ℚ)
  if r < 1 / 2 then f
  else if 1 / 2 < r then f + 1
  else if f % 2 = 0 then f else f + 1

/-! ### Static model input

`ModelInput` packages the validated data `solve_schedule` builds its model
from (employees, qualifications, hour data, timeset forcings).  `favored e`
stands for the source's `e.lower() in favored_employees_normalized`. -/

structure ModelInput where
  employees : List String
  qual : String → List String
  targetHours : String → ℕ
  maxHours : String → ℕ
  favored : String → Bool
  departmentRoles : List String
  departmentTargetHours : String → ℕ
  departmentMaxHours : String → ℕ
  unavailable : String → ℕ → List ℕ
  forcedAssignments : List (String × ℕ × ℕ × String)
  enforceMinDeptBlock : Bool

/-- A candidate assignment to the model's decision variables.  `stop` is the
source's `end` variable family (a Lean keyword); `frontdeskStart/Stop` and
`roleStart/Stop` are the FD and per-role block markers. -/
structure Sol where
  work : String → ℕ → ℕ → Bool
  assign : String → ℕ → ℕ → String → Bool
  start : String → ℕ → ℕ → Bool
  stop : String → ℕ → ℕ → Bool
  frontdeskStart : String → ℕ → ℕ → Bool
  frontdeskStop : String → ℕ → ℕ → Bool
  roleStart : String → ℕ → ℕ → String → Bool
  roleStop : String → ℕ → ℕ → String → Bool

/-! ### Derived structures mirroring solver.py's precomputations -/

/-- An `assign` variable is materialized iff the employee is qualified for the
role or a timeset forces the tuple (solver.py lines 545-552). -/
def hasAssignVar (inst : ModelInput) (e : String) (d t : ℕ) (r : String) : Bool :=
  decide (r ∈ inst.qual e) || decide ((e, d, t, r) ∈ inst.forcedAssignments)

/-- Source `roles`: the front-desk role first, then the department roles. -/
def rolesList (inst : ModelInput) : List String :=
  FRONT_DESK_ROLE :: inst.departmentRoles

/-- Source `all_roles_including_forced = list(set(roles) | forced_roles)`. -/
def allRolesIncludingForced (inst : ModelInput) : List String :=
  rolesList inst ++
    ((inst.forcedAssignments.map (fun f => f.2.2.2)).filter
      (fun r => !decide (r ∈ rolesList inst))).dedup

/-- Roles with a materialized `assign` variable at `(e, d, t)` (source
`employee_roles_at_slot`). -/
def rolesAtSlot (inst : ModelInput) (e : String) (d t : ℕ) : List String :=
  (allRolesIncludingForced inst).filter (fun r => hasAssignVar inst e d t r)

/-- Source `assign.get((e, d, t, r), 0)`: an unmaterialized variable reads as 0. -/
def matAssign (inst : ModelInput) (sol : Sol) (e : String) (d t : ℕ) (r : String) : Bool :=
  hasAssignVar inst e d t r && sol.assign e d t r

/-- The sum `Σ_r assign[e,d,t,r]` over the materialized roles at the slot. -/
def matAssignSum (inst : ModelInput) (sol : Sol) (e : String) (d t : ℕ) : ℕ :=
  ((rolesAtSlot inst e d t).map (fun r => if sol.assign e d t r then 1 else 0)).sum

/-- The materialized roles actively assigned at `(e, d, t)`. -/
def activeAssignedRoles (inst : ModelInput) (sol : Sol) (e : String) (d t : ℕ) : List String :=
  (rolesAtSlot inst e d t).filter (fun r => sol.assign e d t r)

/-- Source `num_front_desk`: employees assigned the front-desk role at `(d, t)`. -/
def fdHeadcount (inst : ModelInput) (sol : Sol) (d t : ℕ) : ℕ :=
  (inst.employees.map
    (fun e => if matAssign inst sol e d t FRONT_DESK_ROLE then 1 else 0)).sum

/-- Source `total_slots_today`: slots worked by `e` on day `d`. -/
def daySlots (sol : Sol) (e : String) (d : ℕ) : ℕ :=
  (T.map (fun t => if sol.work e d t then 1 else 0)).sum

/-- Source `total_weekly_slots`: slots worked by `e` across the week. -/
def weekSlots (sol : Sol) (e : String) : ℕ :=
  (days.map (fun d => daySlots sol e d)).sum

/-- Forced slots of `(e, d)` in ascending order (source `emp_day_slots`,
a set of slots; slots are in 0..17 for validated inputs). -/
def forcedSlotsOn (inst : ModelInput) (e : String) (d : ℕ) : List ℕ :=
  T.filter (fun t =>
    inst.forcedAssignments.any (fun f => f.1 == e && f.2.1 == d && f.2.2.1 == t))

/-- Does a sorted slot list contain a gap (consecutive entries differing by
more than 1)?  Mirrors the `has_gap` scan in solver.py lines 588-593. -/
def hasGapList : List ℕ → Bool
  | a :: b :: rest => decide (a + 1 < b) || hasGapList (b :: rest)
  | _ => false

/-- Source `(e, d) ∈ forced_employee_days_with_gaps`. -/
def forcedDayHasGap (inst : ModelInput) (e : String) (d : ℕ) : Bool :=
  hasGapList (forcedSlotsOn inst e d)

/-- Source `(e, d) ∈ forced_employee_days`. -/
def forcedEmployeeDay (inst : ModelInput) (e : String) (d : ℕ) : Bool :=
  inst.forcedAssignments.any (fun f => f.1 == e && f.2.1 == d)

/-- Source `forced_slot_count.get((e, d), 0)`. -/
def forcedSlotCountOn (inst : ModelInput) (e : String) (d : ℕ) : ℕ :=
  (forcedSlotsOn inst e d).length

/-- Does `e` have a forced front-desk assignment on day `d`? -/
def hasForcedFdOn (inst : ModelInput) (e : String) (d : ℕ) : Bool :=
  inst.forcedAssignments.any
    (fun f => f.1 == e && f.2.1 == d && f.2.2.2 == FRONT_DESK_ROLE)

/-- Does any employee have a forced front-desk assignment on day `d`? -/
def dayHasForcedFd (inst : ModelInput) (d : ℕ) : Bool :=
  inst.forcedAssignments.any (fun f => f.2.1 == d && f.2.2.2 == FRONT_DESK_ROLE)

/-- Does `e` have a forced assignment to role `r` on day `d`?  (Source
`has_forced_role_assignment`, solver.py lines 905-910.) -/
def hasForcedRoleOn (inst : ModelInput) (e : String) (d : ℕ) (r : String) : Bool :=
  inst.forcedAssignments.any (fun f => f.1 == e && f.2.1 == d && f.2.2.2 == r)

/-- Source `department_sizes[r]`: employees qualified for department `r`. -/
def departmentSizes (inst : ModelInput) (r : String) : ℕ :=
  (inst.employees.filter (fun e => decide (r ∈ inst.qual e))).length

/-- The smaller of two departments under the source's sort key
`(department_sizes[r], r)`. -/
def pickSmallerDept (inst : ModelInput) (a b : String) : String :=
  if departmentSizes inst a < departmentSizes inst b then a
  else if departmentSizes inst b < departmentSizes inst a then b
  else if a < b then a else b

/-- Minimum of a department list under the key `(size, name)`. -/
def minByDeptKey (inst : ModelInput) : List String → Option String
  | [] => none
  | r :: rest =>
    match minByDeptKey inst rest with
    | none => some r
    | some b => some (pickSmallerDept inst r b)

/-- Source `primary_department_for_employee[e]` (solver.py lines 421-429): smallest
qualified department, ties broken by name; `none` if FD-only. -/
def primaryDepartmentForEmployee (inst : ModelInput) (e : String) : Option String :=
  minByDeptKey inst (inst.departmentRoles.filter (fun r => decide (r ∈ inst.qual e)))

/-- Source `department_assignments[r]`: assigned slots of department `r` week-wide. -/
def departmentAssignments (inst : ModelInput) (sol : Sol) (r : String) : ℕ :=
  (inst.employees.map (fun e =>
    (days.map (fun d =>
      (T.map (fun t => if matAssign inst sol e d t r then 1 else 0)).sum)).sum)).sum

/-- Source `front_desk_slots_by_employee[e]`. -/
def frontDeskSlotsByEmployee (inst : ModelInput) (sol : Sol) (e : String) : ℕ :=
  (days.map (fun d =>
    (T.map (fun t => if matAssign inst sol e d t FRONT_DESK_ROLE then 1 else 0)).sum)).sum

/-- Source `dual_front_desk_slots[r]`: FD slots of employees whose primary is `r`. -/
def dualFrontDeskSlots (inst : ModelInput) (sol : Sol) (r : String) : ℕ :=
  (inst.employees.map (fun e =>
    if primaryDepartmentForEmployee inst e = some r
    then frontDeskSlotsByEmployee inst sol e else 0)).sum

/-- Source `department_effective_units[r] = 2 * assignments + dual FD slots`. -/
def departmentEffectiveUnits (inst : ModelInput) (sol : Sol) (r : String) : ℕ :=
  2 * departmentAssignments inst sol r + dualFrontDeskSlots inst sol r

/-- Week-wide slots of `e` in role `r` on day `d` (`total_role_slots`). -/
def roleDaySlots (inst : ModelInput) (sol : Sol) (e : String) (d : ℕ) (r : String) : ℕ :=
  (T.map (fun t => if matAssign inst sol e d t r then 1 else 0)).sum

/-! ### Hard constraint families emitted by `solve_schedule`

Each family is a decidable proposition over `(ModelInput, Sol)`, translated
from the constraint-emission loops of solver.py.  A returned feasible
solution satisfies every family. -/

/-- Step 6 forcing (solver.py lines 555-570): every timeset tuple pins the
corresponding `work` and `assign` variables to 1. -/
def ForcedConstraints (inst : ModelInput) (sol : Sol) : Prop :=
  ∀ f ∈ inst.forcedAssignments,
    sol.work f.1 f.2.1 f.2.2.1 = true ∧ sol.assign f.1 f.2.1 f.2.2.1 f.2.2.2 = true

/-- Source `effective_max_shifts` (solver.py lines 609-612): 2 on employee-days whose
forced slots are non-contiguous, else 1. -/
def effectiveMaxShifts (inst : ModelInput) (e : String) (d : ℕ) : ℕ :=
  if forcedDayHasGap inst e d then 2 else 1

/-- Number of shift starts on `(e, d)`. -/
def startCount (sol : Sol) (e : String) (d : ℕ) : ℕ :=
  (T.map (fun t => if sol.start e d t then 1 else 0)).sum

/-- Number of shift ends on `(e, d)`. -/
def stopCount (sol : Sol) (e : String) (d : ℕ) : ℕ :=
  (T.map (fun t => if sol.stop e d t then 1 else 0)).sum

/-- Step 7.1-7.5 (solver.py lines 606-643): per-day shift block contiguity
equations with the start/end counts capped at `effective_max_shifts`. -/
def ContiguityConstraints (inst : ModelInput) (sol : Sol) : Prop :=
  ∀ e ∈ inst.employees, ∀ d ∈ days,
    startCount sol e d ≤ effectiveMaxShifts inst e d ∧
    stopCount sol e d ≤ effectiveMaxShifts inst e d ∧
    startCount sol e d = stopCount sol e d ∧
    sol.work e d 0 = sol.start e d 0 ∧
    (∀ t ∈ List.range' 1 17,
      b2i (sol.work e d t) - b2i (sol.work e d (t - 1)) =
        b2i (sol.start e d t) - b2i (sol.stop e d (t - 1))) ∧
    sol.stop e d 17 = sol.work e d 17

/-- The per-day minimum applying to `e` (`min_slots_today`). -/
def minSlotsToday (inst : ModelInput) (e : String) : ℕ :=
  if inst.favored e then FAVORED_MIN_SLOTS else MIN_SLOTS

/-- The per-day maximum applying to `(e, d)` (`max_slots_today`, raised to the
forced slot count when a timeset forces more). -/
def maxSlotsToday (inst : ModelInput) (e : String) (d : ℕ) : ℕ :=
  max (if inst.favored e then FAVORED_MAX_SLOTS else MAX_SLOTS)
    (forcedSlotCountOn inst e d)

/-- Step 7.6-7.7 (solver.py lines 645-690): daily shift-length rules.  The
source's `works_today` indicator is pinned by its two-sided reification to
`total_slots_today ≥ 1`, so the minimum-length implication is stated
directly on the slot count. -/
def ShiftLengthConstraints (inst : ModelInput) (sol : Sol) : Prop :=
  ∀ e ∈ inst.employees, ∀ d ∈ days,
    (forcedEmployeeDay inst e d = false →
      (daySlots sol e d = 0 ∨ minSlotsToday inst e ≤ daySlots sol e d)) ∧
    daySlots sol e d ≤ maxSlotsToday inst e d ∧
    (forcedEmployeeDay inst e d = false →
      daySlots sol e d ≠ 1 ∧
      (inst.favored e = false → daySlots sol e d ≠ 2 ∧ daySlots sol e d ≠ 3))

/-- Step 7B (solver.py lines 705-720): weekly personal and universal caps. -/
def WeeklyConstraints (inst : ModelInput) (sol : Sol) : Prop :=
  ∀ e ∈ inst.employees,
    weekSlots sol e ≤ 2 * inst.maxHours e ∧
    weekSlots sol e ≤ 2 * UNIVERSAL_MAXIMUM_HOURS

/-- Step 8 (solver.py lines 730-737): no work on unavailable slots. -/
def AvailabilityConstraints (inst : ModelInput) (sol : Sol) : Prop :=
  ∀ e ∈ inst.employees, ∀ d ∈ days, ∀ t ∈ inst.unavailable e d,
    t ∈ T → sol.work e d t = false

/-- Step 9 (solver.py lines 744-777): role exclusivity, work linkage, and
front-desk supervision of departmental work. -/
def RoleConstraints (inst : ModelInput) (sol : Sol) : Prop :=
  ∀ e ∈ inst.employees, ∀ d ∈ days, ∀ t ∈ T,
    (1 < (rolesAtSlot inst e d t).length → matAssignSum inst sol e d t ≤ 1) ∧
    (∀ r ∈ rolesAtSlot inst e d t, sol.assign e d t r = true → sol.work e d t = true) ∧
    (rolesAtSlot inst e d t ≠ [] →
      matAssignSum inst sol e d t = (if sol.work e d t then 1 else 0)) ∧
    (rolesAtSlot inst e d t = [] → sol.work e d t = false) ∧
    (∀ r ∈ inst.departmentRoles, hasAssignVar inst e d t r = true →
      sol.assign e d t r = true → 1 ≤ fdHeadcount inst sol d t)

/-- Source `frontdesk_start.get((e,d,t), 0)`. -/
def matFdStart (inst : ModelInput) (sol : Sol) (e : String) (d t : ℕ) : Bool :=
  hasAssignVar inst e d t FRONT_DESK_ROLE && sol.frontdeskStart e d t

/-- Source `frontdesk_end.get((e,d,t), 0)`. -/
def matFdStop (inst : ModelInput) (sol : Sol) (e : String) (d t : ℕ) : Bool :=
  hasAssignVar inst e d t FRONT_DESK_ROLE && sol.frontdeskStop e d t

/-- FD slots of `e` on day `d` (`total_front_desk_slots`). -/
def fdDaySlots (inst : ModelInput) (sol : Sol) (e : String) (d : ℕ) : ℕ :=
  (T.map (fun t => if matAssign inst sol e d t FRONT_DESK_ROLE then 1 else 0)).sum

/-- Step 9B (solver.py lines 784-835): front-desk block contiguity and the
minimum FD stint (`0` or `≥ 4`) with its two timeset exemptions.  Employees
the source skips (no FD variable anywhere) satisfy every conjunct trivially
because unmaterialized variables read as 0. -/
def FrontDeskConstraints (inst : ModelInput) (sol : Sol) : Prop :=
  ∀ e ∈ inst.employees, ∀ d ∈ days,
    (T.map (fun t => if matFdStart inst sol e d t then 1 else 0)).sum ≤ 1 ∧
    (T.map (fun t => if matFdStop inst sol e d t then 1 else 0)).sum ≤ 1 ∧
    (T.map (fun t => if matFdStart inst sol e d t then 1 else 0)).sum =
      (T.map (fun t => if matFdStop inst sol e d t then 1 else 0)).sum ∧
    matAssign inst sol e d 0 FRONT_DESK_ROLE = matFdStart inst sol e d 0 ∧
    (∀ t ∈ List.range' 1 17,
      b2i (matAssign inst sol e d t FRONT_DESK_ROLE) -
          b2i (matAssign inst sol e d (t - 1) FRONT_DESK_ROLE) =
        b2i (matFdStart inst sol e d t) - b2i (matFdStop inst sol e d (t - 1))) ∧
    matFdStop inst sol e d 17 = matAssign inst sol e d 17 FRONT_DESK_ROLE ∧
    (hasForcedFdOn inst e d = false → dayHasForcedFd inst d = false →
      fdDaySlots inst sol e d ≠ 1 ∧ fdDaySlots inst sol e d ≠ 2 ∧
      fdDaySlots inst sol e d ≠ 3)

/-- Source `role_start.get((e,d,t,r), 0)`. -/
def matRoleStart (inst : ModelInput) (sol : Sol) (e : String) (d t : ℕ) (r : String) : Bool :=
  hasAssignVar inst e d t r && sol.roleStart e d t r

/-- Source `role_end.get((e,d,t,r), 0)`. -/
def matRoleStop (inst : ModelInput) (sol : Sol) (e : String) (d t : ℕ) (r : String) : Bool :=
  hasAssignVar inst e d t r && sol.roleStop e d t r

/-- First-slot boundary of step 9C (solver.py lines 879-888): at the first
slot carrying an `assign` variable for `(e, d, r)`, the assignment equals the
role-start marker. -/
def firstSlotBoundary (inst : ModelInput) (sol : Sol) (e : String) (d : ℕ) (r : String) : Bool :=
  match T.find? (fun t => hasAssignVar inst e d t r) with
  | some t0 => sol.assign e d t0 r == sol.roleStart e d t0 r
  | none => true

/-- Step 9C mark-count caps (solver.py lines 872-877): at most one role start
and one role end per day, in equal numbers. -/
def RoleBlockMarkCounts (inst : ModelInput) (sol : Sol) (e : String) (d : ℕ) (r : String) : Prop :=
  (T.map (fun t => if matRoleStart inst sol e d t r then 1 else 0)).sum ≤ 1 ∧
  (T.map (fun t => if matRoleStop inst sol e d t r then 1 else 0)).sum ≤ 1 ∧
  (T.map (fun t => if matRoleStart inst sol e d t r then 1 else 0)).sum =
    (T.map (fun t => if matRoleStop inst sol e d t r then 1 else 0)).sum

instance (inst : ModelInput) (sol : Sol) (e : String) (d : ℕ) (r : String) :
    Decidable (RoleBlockMarkCounts inst sol e d r) := by
  unfold RoleBlockMarkCounts; infer_instance

/-- Step 9C internal transition equations (solver.py lines 890-896), emitted
for each pair of adjacent slots both carrying an `assign` variable. -/
def roleTransitionEqs (inst : ModelInput) (sol : Sol) (e : String) (d : ℕ) (r : String) : Prop :=
  ∀ t ∈ List.range' 1 17,
    hasAssignVar inst e d t r = true → hasAssignVar inst e d (t - 1) r = true →
    b2i (sol.assign e d t r) - b2i (sol.assign e d (t - 1) r) =
      b2i (sol.roleStart e d t r) - b2i (sol.roleStop e d (t - 1) r)

instance (inst : ModelInput) (sol : Sol) (e : String) (d : ℕ) (r : String) :
    Decidable (roleTransitionEqs inst sol e d r) := by
  unfold roleTransitionEqs; infer_instance

/-- Step 9C boundary and transition equations (solver.py lines 879-900). -/
def RoleBlockTransitions (inst : ModelInput) (sol : Sol) (e : String) (d : ℕ) (r : String) : Prop :=
  firstSlotBoundary inst sol e d r = true ∧
  roleTransitionEqs inst sol e d r ∧
  (hasAssignVar inst e d 17 r = true →
    matRoleStop inst sol e d 17 r = sol.assign e d 17 r)

instance (inst : ModelInput) (sol : Sol) (e : String) (d : ℕ) (r : String) :
    Decidable (RoleBlockTransitions inst sol e d r) := by
  unfold RoleBlockTransitions; infer_instance

/-- Step 9C role-length minima (solver.py lines 902-934): no single-slot role
fragment (with the timeset and forced-FD-day exemptions), and under
`enforce_min_dept_block` no 2- or 3-slot department block for non-favored
employees without a forced assignment for the role that day. -/
def RoleBlockMinima (inst : ModelInput) (sol : Sol) (e : String) (d : ℕ) (r : String) : Prop :=
  (hasForcedRoleOn inst e d r = false →
    (r == FRONT_DESK_ROLE && dayHasForcedFd inst d) = false →
    roleDaySlots inst sol e d r ≠ 1) ∧
  (inst.enforceMinDeptBlock = true → inst.favored e = false →
    r ≠ FRONT_DESK_ROLE → hasForcedRoleOn inst e d r = false →
    roleDaySlots inst sol e d r ≠ 2 ∧ roleDaySlots inst sol e d r ≠ 3)

instance (inst : ModelInput) (sol : Sol) (e : String) (d : ℕ) (r : String) :
    Decidable (RoleBlockMinima inst sol e d r) := by
  unfold RoleBlockMinima; exact instDecidableAnd

/-- The step 9C constraints emitted for one `(e, d, r)` with at least one
materialized `assign` variable (solver.py lines 863-934). -/
def RoleBlockLocal (inst : ModelInput) (sol : Sol) (e : String) (d : ℕ) (r : String) : Prop :=
  RoleBlockMarkCounts inst sol e d r ∧ RoleBlockTransitions inst sol e d r ∧
  RoleBlockMinima inst sol e d r

instance (inst : ModelInput) (sol : Sol) (e : String) (d : ℕ) (r : String) :
    Decidable (RoleBlockLocal inst sol e d r) := by
  unfold RoleBlockLocal; infer_instance

/-- Step 9C over every employee, day, and role carrying variables. -/
def RoleBlockConstraints (inst : ModelInput) (sol : Sol) : Prop :=
  ∀ e ∈ inst.employees, ∀ d ∈ days, ∀ r ∈ allRolesIncludingForced inst,
    (T.any (fun t => hasAssignVar inst e d t r)) = true →
    RoleBlockLocal inst sol e d r

/-- Number of department roles with exactly two slots on `(e, d)` (source
`num_with_2`; the `has_2_slots` indicators are pinned by two-sided
reification). -/
def deptsWithTwoSlots (inst : ModelInput) (sol : Sol) (e : String) (d : ℕ) : ℕ :=
  (inst.departmentRoles.filter (fun r => roleDaySlots inst sol e d r == 2)).length

/-- Step 9D (solver.py lines 943-966): on a 4-slot day at most one department
role may hold exactly 2 slots (`is_4_slot_shift` is pinned by two-sided
reification). -/
def CrossDeptConstraints (inst : ModelInput) (sol : Sol) : Prop :=
  inst.enforceMinDeptBlock = true →
    ∀ e ∈ inst.employees, ∀ d ∈ days,
      daySlots sol e d = 4 → deptsWithTwoSlots inst sol e d ≤ 1

/-- Step 10 hard part (solver.py line 995): at most one front desk per slot. -/
def FdExclusivityConstraints (inst : ModelInput) (sol : Sol) : Prop :=
  ∀ d ∈ days, ∀ t ∈ T, fdHeadcount inst sol d t ≤ 1

/-- Source `department_max_units[r] = int(round(max_hours * 4)) = 4 * max_hours`. -/
def departmentMaxUnits (inst : ModelInput) (r : String) : ℕ :=
  4 * inst.departmentMaxHours r

/-- Department-maximum constraint (solver.py lines 1084-1085). -/
def DeptMaxConstraints (inst : ModelInput) (sol : Sol) : Prop :=
  ∀ r ∈ inst.departmentRoles,
    departmentEffectiveUnits inst sol r ≤ departmentMaxUnits inst r

/-- Source `adjusted_target_hours * 4` (solver.py lines 1120-1123): the department
target in quarter-hour units, capped by qualified capacity and the
department maximum. -/
def adjustedTargetUnits (inst : ModelInput) (r : String) : ℕ :=
  4 * min (inst.departmentTargetHours r)
      (min ((inst.employees.map
              (fun e => if decide (r ∈ inst.qual e) then inst.maxHours e else 0)).sum)
        (inst.departmentMaxHours r))

/-- Range constraint induced by the department `over`/`under` deviation
variables with domain [0, 400] (solver.py lines 1126-1128). -/
def DeptDeviationConstraints (inst : ModelInput) (sol : Sol) : Prop :=
  ∀ r ∈ inst.departmentRoles,
    departmentEffectiveUnits inst sol r ≤ adjustedTargetUnits inst r + 400 ∧
    adjustedTargetUnits inst r ≤ departmentEffectiveUnits inst sol r + 400

/-! ### The hard week-hour window (solver.py lines 1154-1211) -/

/-- Source `availability_slots[e]` (solver.py lines 700-703). -/
def availabilitySlots (inst : ModelInput) (e : String) : ℕ :=
  5 * 18 - (days.map (fun d => (inst.unavailable e d).length)).sum

/-- Source `feasible_upper` (solver.py line 1167). -/
def feasibleUpperSlots (inst : ModelInput) (e : String) : ℕ :=
  min (2 * inst.targetHours e + 2 * TARGET_HARD_DELTA_HOURS)
    (min (2 * inst.maxHours e) (2 * UNIVERSAL_MAXIMUM_HOURS))

/-- Source `feasible_lower` before relaxation (solver.py lines 1162, 1168); natural
subtraction renders `max(0, target_slots - delta_slots)`. -/
def baseFeasibleLowerSlots (inst : ModelInput) (e : String) : ℕ :=
  min (2 * inst.targetHours e - 2 * TARGET_HARD_DELTA_HOURS)
    (min (availabilitySlots inst e) (feasibleUpperSlots inst e))

/-- Source `total_forced_dept_slots`: forced tuples whose role is not front desk. -/
def totalForcedDeptSlots (inst : ModelInput) : ℕ :=
  (inst.forcedAssignments.filter (fun f => !(f.2.2.2 == FRONT_DESK_ROLE))).length

/-- Number of FD-qualified employees. -/
def fdQualifiedCount (inst : ModelInput) : ℕ :=
  (inst.employees.filter (fun e => decide (FRONT_DESK_ROLE ∈ inst.qual e))).length

/-- Source `num_fd_qualified = max(1, len(fd_qualified_employees))`. -/
def numFdQualified (inst : ModelInput) : ℕ := max 1 (fdQualifiedCount inst)

/-- The `reduction` computed by the timeset relaxation (solver.py lines
1191-1206) when at least 4 forced department slots exist. -/
def reductionSlots (inst : ModelInput) (e : String) : ℕ :=
  if 30 ≤ totalForcedDeptSlots inst then baseFeasibleLowerSlots inst e
  else if FRONT_DESK_ROLE ∈ inst.qual e then
    if 20 ≤ totalForcedDeptSlots inst then baseFeasibleLowerSlots inst e - 2
    else min (baseFeasibleLowerSlots inst e)
      (totalForcedDeptSlots inst / numFdQualified inst)
  else
    if 20 ≤ totalForcedDeptSlots inst then baseFeasibleLowerSlots inst e / 2
    else min (baseFeasibleLowerSlots inst e) (totalForcedDeptSlots inst / 10)

/-- Source `feasible_lower` after the timeset relaxation (solver.py lines 1173-1208).
All quantities are nonnegative in the source, so the Python `max(0, a - b)`
steps are natural subtraction. -/
def relaxedFeasibleLowerSlots (inst : ModelInput) (e : String) : ℕ :=
  if inst.forcedAssignments ≠ [] ∧ 0 < baseFeasibleLowerSlots inst e then
    if 4 ≤ totalForcedDeptSlots inst then
      baseFeasibleLowerSlots inst e - reductionSlots inst e
    else baseFeasibleLowerSlots inst e
  else baseFeasibleLowerSlots inst e

/-- Hard week window (solver.py lines 1210-1211) together with the range
condition induced by the `over_target`/`under_target` variables with domain
[0, 100] (lines 1214-1218). -/
def HourWindowConstraints (inst : ModelInput) (sol : Sol) : Prop :=
  ∀ e ∈ inst.employees,
    relaxedFeasibleLowerSlots inst e ≤ weekSlots sol e ∧
    weekSlots sol e ≤ feasibleUpperSlots inst e ∧
    weekSlots sol e ≤ 2 * inst.targetHours e + 100 ∧
    2 * inst.targetHours e ≤ weekSlots sol e + 100

/-- Conjunction of every hard constraint family the model emits. -/
def SatisfiesHard (inst : ModelInput) (sol : Sol) : Prop :=
  ForcedConstraints inst sol ∧ ContiguityConstraints inst sol ∧
  ShiftLengthConstraints inst sol ∧ WeeklyConstraints inst sol ∧
  AvailabilityConstraints inst sol ∧ RoleConstraints inst sol ∧
  FrontDeskConstraints inst sol ∧ RoleBlockConstraints inst sol ∧
  CrossDeptConstraints inst sol ∧ FdExclusivityConstraints inst sol ∧
  DeptMaxConstraints inst sol ∧ DeptDeviationConstraints inst sol ∧
  HourWindowConstraints inst sol

/-! ### Decidability of the constraint families -/

instance (inst : ModelInput) (sol : Sol) : Decidable (ForcedConstraints inst sol) := by
  unfold ForcedConstraints; infer_instance

instance (inst : ModelInput) (sol : Sol) : Decidable (ContiguityConstraints inst sol) := by
  unfold ContiguityConstraints; infer_instance

instance (inst : ModelInput) (sol : Sol) : Decidable (ShiftLengthConstraints inst sol) := by
  unfold ShiftLengthConstraints; infer_instance

instance (inst : ModelInput) (sol : Sol) : Decidable (WeeklyConstraints inst sol) := by
  unfold WeeklyConstraints; infer_instance

instance (inst : ModelInput) (sol : Sol) : Decidable (AvailabilityConstraints inst sol) := by
  unfold AvailabilityConstraints; infer_instance

instance (inst : ModelInput) (sol : Sol) : Decidable (RoleConstraints inst sol) := by
  unfold RoleConstraints; infer_instance

instance (inst : ModelInput) (sol : Sol) : Decidable (FrontDeskConstraints inst sol) := by
  unfold FrontDeskConstraints; infer_instance

instance (inst : ModelInput) (sol : Sol) : Decidable (RoleBlockConstraints inst sol) := by
  unfold RoleBlockConstraints; infer_instance

instance (inst : ModelInput) (sol : Sol) : Decidable (CrossDeptConstraints inst sol) := by
  unfold CrossDeptConstraints; infer_instance

instance (inst : ModelInput) (sol : Sol) : Decidable (FdExclusivityConstraints inst sol) := by
  unfold FdExclusivityConstraints; infer_instance

instance (inst : ModelInput) (sol : Sol) : Decidable (DeptMaxConstraints inst sol) := by
  unfold DeptMaxConstraints; infer_instance

instance (inst : ModelInput) (sol : Sol) : Decidable (DeptDeviationConstraints inst sol) := by
  unfold DeptDeviationConstraints; infer_instance

instance (inst : ModelInput) (sol : Sol) : Decidable (HourWindowConstraints inst sol) := by
  unfold HourWindowConstraints; infer_instance

instance (inst : ModelInput) (sol : Sol) : Decidable (SatisfiesHard inst sol) := by
  unfold SatisfiesHard; infer_instance

/-! ### The spec's target-lower-bound formulas (claim C2)

`claimFeasibleLower` transcribes the claim's relaxation formulas verbatim
(in integer arithmetic, with `⌊·/·⌋` as natural division and `q` the number
of FD-qualified employees).  `claimFeasibleLowerAmended` replaces the
FD-qualified `F ≥ 20` formula `max(0, fl − (fl − 2))` by the code's
`max(0, fl − max(0, fl − 2))`; nothing else changes. -/

/-- The lower bound asserted by claim C2, read literally (`fl` abbreviates
the unrelaxed `feasible_lower`, `F` the forced department slot count). -/
def claimFeasibleLower (inst : ModelInput) (e : String) : ℤ :=
  if 30 ≤ totalForcedDeptSlots inst then 0
  else if 4 ≤ totalForcedDeptSlots inst then
    if FRONT_DESK_ROLE ∈ inst.qual e then
      if 20 ≤ totalForcedDeptSlots inst then
        max 0 ((baseFeasibleLowerSlots inst e : ℤ) -
          ((baseFeasibleLowerSlots inst e : ℤ) - 2))
      else
        max 0 ((baseFeasibleLowerSlots inst e : ℤ) -
          min (baseFeasibleLowerSlots inst e : ℤ)
            ((totalForcedDeptSlots inst / fdQualifiedCount inst : ℕ) : ℤ))
    else
      if 20 ≤ totalForcedDeptSlots inst then
        ((baseFeasibleLowerSlots inst e / 2 : ℕ) : ℤ)
      else
        max 0 ((baseFeasibleLowerSlots inst e : ℤ) -
          min (baseFeasibleLowerSlots inst e : ℤ)
            ((totalForcedDeptSlots inst / 10 : ℕ) : ℤ))
  else (baseFeasibleLowerSlots inst e : ℤ)

/-- Claim C2's lower bound with the FD-qualified `F ≥ 20` formula repaired to
match the code (`max(0, fl − max(0, fl − 2))`, i.e. `min fl 2` for `fl ≥ 0`);
nothing else changes. -/
def claimFeasibleLowerAmended (inst : ModelInput) (e : String) : ℤ :=
  if 30 ≤ totalForcedDeptSlots inst then 0
  else if 4 ≤ totalForcedDeptSlots inst then
    if FRONT_DESK_ROLE ∈ inst.qual e then
      if 20 ≤ totalForcedDeptSlots inst then
        max 0 ((baseFeasibleLowerSlots inst e : ℤ) -
          max 0 ((baseFeasibleLowerSlots inst e : ℤ) - 2))
      else
        max 0 ((baseFeasibleLowerSlots inst e : ℤ) -
          min (baseFeasibleLowerSlots inst e : ℤ)
            ((totalForcedDeptSlots inst / fdQualifiedCount inst : ℕ) : ℤ))
    else
      if 20 ≤ totalForcedDeptSlots inst then
        ((baseFeasibleLowerSlots inst e / 2 : ℕ) : ℤ)
      else
        max 0 ((baseFeasibleLowerSlots inst e : ℤ) -
          min (baseFeasibleLowerSlots inst e : ℤ)
            ((totalForcedDeptSlots inst / 10 : ℕ) : ℤ))
  else (baseFeasibleLowerSlots inst e : ℤ)

/-! ### Timeset validation (solver.py lines 216-287, claim C6) -/

/-- Python `str.lower()` (ASCII case folding, as the source's names use). -/
def pyLower (s : String) : String := String.mk (s.data.map Char.toLower)

/-- Python `str.strip()`: drop leading and trailing whitespace. -/
def pyStrip (s : String) : String :=
  String.mk (((s.data.dropWhile Char.isWhitespace).reverse.dropWhile
    Char.isWhitespace).reverse)

/-- Source `normalize_department_name` (domain/models.py lines 11-30): lowercase,
strip, collapse runs of whitespace/underscores to a single underscore. -/
def isSepChar (c : Char) : Bool := c.isWhitespace || c == '_'

/-- Collapse each maximal run of separator characters to one underscore; the
flag records whether the previous character was a separator. -/
def collapseSepsAux : Bool → List Char → List Char
  | _, [] => []
  | prevSep, c :: rest =>
    if isSepChar c then
      if prevSep then collapseSepsAux true rest
      else '_' :: collapseSepsAux true rest
    else c :: collapseSepsAux false rest

/-- Collapse each maximal run of separator characters to one underscore. -/
def collapseSeps (cs : List Char) : List Char := collapseSepsAux false cs

/-- Source `normalize_department_name(name)`. -/
def normalizeDepartmentName (name : String) : String :=
  if name = "" then ""
  else String.mk (collapseSeps (pyLower (pyStrip name)).data)

/-- A timeset request as passed to `solve_schedule`. -/
structure TimesetRequest where
  employee : String
  day : String
  department : String
  startSlot : ℕ
  endSlot : ℕ

/-- Static data the timeset validation loop consults. -/
structure TimesetContext where
  employees : List String
  weeklyHourLimits : String → ℚ
  unavailable : String → String → List ℕ
  departmentRoles : List String

/-- The validation errors the timeset loop can raise (`ValueError`s in
solver.py lines 220-271; message details are elided). -/
inductive TimesetError where
  | unknownEmployee (name : String)
  | invalidDay (day : String)
  | unknownDepartment (dept : String)
  | emptyRange (employee day : String)
  | unavailableConflict (employee day : String)
  | durationExceeded (employee : String)
deriving DecidableEq

/-- Source `DAY_NAMES` from config.py. -/
def DAY_NAMES : List String := ["Mon", "Tue", "Wed", "Thu", "Fri"]

/-- Source `employees_lower` (solver.py line 212). -/
def employeesLower (ctx : TimesetContext) : List (String × String) :=
  ctx.employees.map (fun e => (pyLower e, e))

/-- Source `role_lookup_lower` (solver.py line 213). -/
def roleLookupLower (ctx : TimesetContext) : List (String × String) :=
  ctx.departmentRoles.map (fun r => (normalizeDepartmentName r, r))

/-- Source `day_lookup_lower` (solver.py line 214). -/
def dayLookupLower : List (String × String) :=
  DAY_NAMES.map (fun d => (pyLower d, d))

/-- The canonical employee a request resolves to, if any. -/
def resolvedEmployee (ctx : TimesetContext) (req : TimesetRequest) : Option String :=
  (employeesLower ctx).lookup (pyLower (pyStrip req.employee))

/-- Source `len(slots)` for a request: `slots = range(start_slot, end_slot)`. -/
def requestSlotCount (req : TimesetRequest) : ℕ := req.endSlot - req.startSlot

/-- Source `weekly_limit_slots = int(round(weekly_hour_limits.get(employee, 0) * 2))`
(solver.py line 265). -/
def weeklyLimitSlots (ctx : TimesetContext) (employee : String) : ℤ :=
  pyRound (ctx.weeklyHourLimits employee * 2)

/-- The slot-level checks of a single timeset request (solver.py lines
250-277): nonempty range, no unavailability overlap, and the per-request
duration check against `weekly_limit_slots` (skipped when that limit is 0). -/
def validateTimesetSlots (ctx : TimesetContext) (req : TimesetRequest)
    (employee day roleName : String) :
    Except TimesetError (List (String × String × ℕ × String)) :=
  let slots := List.range' req.startSlot (req.endSlot - req.startSlot)
  if slots = [] then .error (.emptyRange employee day)
  else if slots.any (fun t => t ∈ ctx.unavailable employee day) then
    .error (.unavailableConflict employee day)
  else if weeklyLimitSlots ctx employee ≠ 0 ∧
      weeklyLimitSlots ctx employee < (slots.length : ℤ) then
    .error (.durationExceeded employee)
  else .ok (slots.map (fun t => (employee, day, t, roleName)))

/-- Validation of a single timeset request (solver.py lines 218-287),
returning the forced tuples it contributes. -/
def validateTimeset (ctx : TimesetContext) (req : TimesetRequest) :
    Except TimesetError (List (String × String × ℕ × String)) :=
  match (employeesLower ctx).lookup (pyLower (pyStrip req.employee)) with
  | none => .error (.unknownEmployee req.employee)
  | some employee =>
    match dayLookupLower.lookup (pyLower (pyStrip req.day)) with
    | none => .error (.invalidDay req.day)
    | some day =>
      match (roleLookupLower ctx).lookup (normalizeDepartmentName req.department) with
      | none =>
        if normalizeDepartmentName req.department = FRONT_DESK_ROLE then
          validateTimesetSlots ctx req employee day FRONT_DESK_ROLE
        else .error (.unknownDepartment req.department)
      | some roleName => validateTimesetSlots ctx req employee day roleName

/-- The whole validation loop over a request list: the first error aborts. -/
def validateTimesets (ctx : TimesetContext) :
    List TimesetRequest → Except TimesetError (List (String × String × ℕ × String))
  | [] => .ok []
  | req :: rest =>
    match validateTimeset ctx req with
    | .error err => .error err
    | .ok forced =>
      match validateTimesets ctx rest with
      | .error err => .error err
      | .ok restForced => .ok (forced ++ restForced)

/-- Cumulative slot count of all of `e`'s timeset requests (the quantity
claim C6 says is checked). -/
def cumulativeTimesetSlots (ctx : TimesetContext) (reqs : List TimesetRequest)
    (e : String) : ℕ :=
  ((reqs.filter (fun r => resolvedEmployee ctx r == some e)).map requestSlotCount).sum

/-- A request that resolves to an employee and, on its own, exceeds the
employee's nonzero slot limit (the condition the code actually checks). -/
def requestExceedsLimit (ctx : TimesetContext) (req : TimesetRequest) : Bool :=
  match resolvedEmployee ctx req with
  | some e =>
    decide (weeklyLimitSlots ctx e ≠ 0) &&
      decide (weeklyLimitSlots ctx e < (requestSlotCount req : ℤ))
  | none => false

/-- Per-request form of claim C6's cumulative bound: the cumulative load of
the request's employee stays within the limit. -/
def requestCumulativeOk (ctx : TimesetContext) (reqs : List TimesetRequest)
    (req : TimesetRequest) : Bool :=
  match resolvedEmployee ctx req with
  | some e => decide ((cumulativeTimesetSlots ctx reqs e : ℤ) ≤ weeklyLimitSlots ctx e)
  | none => true

/-- Is an error the duration rejection? -/
def isDurationError : TimesetError → Bool
  | .durationExceeded _ => true
  | _ => false

/-! ### Training goal derivation (solver.py lines 368-374, claim C7) -/

/-- Source `goal_slots` derived for a validated training pair from the two trainees'
target weekly hours:
`min_target_slots = int(round(min(t1, t2) * 2))`; if positive,
`goal = min(max(TRAINING_MIN_SLOTS, int(round(min_target_slots * 0.35))), min_target_slots)`,
else 0. -/
def trainingGoalSlots (targetOne targetTwo : ℚ) : ℤ :=
  let minTargetSlots := pyRound (min targetOne targetTwo * 2)
  if 0 < minTargetSlots then
    min (max TRAINING_MIN_SLOTS (pyRound ((minTargetSlots : ℚ) * TRAINING_TARGET_FRACTION)))
      minTargetSlots
  else 0

/-- The goal formula asserted by claim C7: `clamp(⌊0.35 · m⌋, 2, m)` with
`m = min(t1, t2) · 2` and a floor instead of the code's rounding. -/
def claimTrainingGoalSlots (targetOne targetTwo : ℚ) : ℤ :=
  let m := pyRound (min targetOne targetTwo * 2)
  if 0 < m then
    min (max TRAINING_MIN_SLOTS (ratFloor ((m : ℚ) * TRAINING_TARGET_FRACTION))) m
  else 0

/-! ### Favored-hours objective coefficient (solver.py lines 1570-1579 and
1618, claim C8) -/

/-- Source `weight = int(mult * 10)` (solver.py line 1578). -/
def favoredHoursWeight (mult : ℚ) : ℤ := pyTrunc (mult * 10)

/-- The `favored_hours_bonus` contribution of one favored employee working
`workedSlots` slots (solver.py line 1579). -/
def favoredHoursBonusPerEmployee (mult : ℚ) (workedSlots : ℕ) : ℤ :=
  favoredHoursWeight mult * workedSlots

/-- The objective credits `FAVORED_HOURS_BONUS_WEIGHT * favored_hours_bonus`
(solver.py line 1618), so this is the total objective contribution of one
favored employee's worked slots. -/
def favoredHoursObjectiveContribution (mult : ℚ) (workedSlots : ℕ) : ℤ :=
  FAVORED_HOURS_BONUS_WEIGHT * favoredHoursBonusPerEmployee mult workedSlots

/-- The per-slot coefficient the spec's objective table asserts:
`200 · ⌊10 · mult⌋ / 10` (a rational; `200` for `mult = 1`). -/
def claimFavoredHoursPerSlot (mult : ℚ) : ℚ :=
  (200 : ℚ) * (pyTrunc (10 * mult) : ℚ) / 10

/-! ### Staff-CSV availability cells (staff_loader.py lines 101-116, claim C9)

A cell is modelled as `Option ℚ`: `some x` for a value `float(value)` parses
to `x`, `none` when parsing raises (the source then treats the cell as
unavailable). -/

/-- Source `can_work = int(float(value)) == 1`, with parse failures `False`. -/
def canWorkCell (v : Option ℚ) : Bool :=
  match v with
  | none => false
  | some x => pyTrunc x == 1

/-- The unavailable slot indices collected for one day's 18 cells
(staff_loader.py lines 103-112). -/
def unavailableSlotsForDay (cells : ℕ → Option ℚ) : List ℕ :=
  (List.range 18).filter (fun t => !canWorkCell (cells t))

/-! ### Staff row loading (staff_loader.py lines 79-99, claim C10)

One CSV row with its roles already split; `none` numeric fields stand for
values `float()` rejects. -/

structure StaffRow where
  name : String
  roles : List String
  targetHours : Option ℚ
  maxHours : Option ℚ
  year : Option ℚ

/-- Errors `load_staff_data` raises while processing one row. -/
inductive StaffRowError where
  | emptyName
  | duplicateName (name : String)
  | noRoles (name : String)
  | badNumeric (column name : String)
deriving DecidableEq

/-- The per-row processing of `load_staff_data` (staff_loader.py lines
79-99): name checks, role check, numeric coercions, and the silent clamp
`target_hours = min(coerce(target), max_hours)`. -/
def processStaffRow (seen : List String) (row : StaffRow) :
    Except StaffRowError (String × List String × ℚ × ℚ × ℤ) :=
  let name := pyStrip row.name
  if name = "" then .error .emptyName
  else if name ∈ seen then .error (.duplicateName name)
  else if row.roles = [] then .error (.noRoles name)
  else
    match row.maxHours with
    | none => .error (.badNumeric "max_hours" name)
    | some maxH =>
      match row.targetHours with
      | none => .error (.badNumeric "target_hours" name)
      | some target =>
        match row.year with
        | none => .error (.badNumeric "year" name)
        | some year => .ok (name, row.roles, min target maxH, maxH, pyTrunc year)

/-! ### Concrete instances

`inst0`/`sol0`: a validated three-employee instance carrying 20 forced
department slots (employee `b`, 4 slots on each of the 5 days) plus a one-slot
forced front-desk timeset for employee `a` on Monday, together with a full
assignment satisfying every hard constraint family.  Employee `a` is
FD-qualified, available only Monday 8:00, with `target = max = 6` hours, so
its unrelaxed `feasible_lower` is 1.

`inst1`/`sol1`: a minimal one-employee instance with the empty schedule, used
to instantiate the proved invariants. -/

def forced0 : List (String × ℕ × ℕ × String) :=
  [("a", 0, 0, "front_desk"),
   ("b", 0, 0, "m"), ("b", 0, 1, "m"), ("b", 0, 2, "m"), ("b", 0, 3, "m"),
   ("b", 1, 0, "m"), ("b", 1, 1, "m"), ("b", 1, 2, "m"), ("b", 1, 3, "m"),
   ("b", 2, 0, "m"), ("b", 2, 1, "m"), ("b", 2, 2, "m"), ("b", 2, 3, "m"),
   ("b", 3, 0, "m"), ("b", 3, 1, "m"), ("b", 3, 2, "m"), ("b", 3, 3, "m"),
   ("b", 4, 0, "m"), ("b", 4, 1, "m"), ("b", 4, 2, "m"), ("b", 4, 3, "m")]

def inst0 : ModelInput where
  employees := ["a", "b", "c"]
  qual := fun e =>
    if e = "a" then ["front_desk"]
    else if e = "b" then ["m"]
    else if e = "c" then ["front_desk"] else []
  targetHours := fun e => if e = "a" then 6 else 10
  maxHours := fun e => if e = "a" then 6 else 10
  favored := fun _ => false
  departmentRoles := ["m"]
  departmentTargetHours := fun _ => 10
  departmentMaxHours := fun _ => 10
  unavailable := fun e d =>
    if e = "a" then
      if d = 0 then (List.range 18).filter (fun t => !(t == 0)) else List.range 18
    else []
  forcedAssignments := forced0
  enforceMinDeptBlock := true

def sol0 : Sol where
  work := fun e d t =>
    if e = "a" then d == 0 && t == 0
    else if e = "b" then decide (t < 4)
    else if e = "c" then
      (if d == 0 then decide (1 ≤ t) && decide (t ≤ 4) else decide (t < 4))
    else false
  assign := fun e d t r =>
    if e = "a" then r == "front_desk" && d == 0 && t == 0
    else if e = "b" then r == "m" && decide (t < 4)
    else if e = "c" then
      r == "front_desk" &&
        (if d == 0 then decide (1 ≤ t) && decide (t ≤ 4) else decide (t < 4))
    else false
  start := fun e d t =>
    if e = "a" then d == 0 && t == 0
    else if e = "b" then t == 0
    else if e = "c" then (if d == 0 then t == 1 else t == 0)
    else false
  stop := fun e d t =>
    if e = "a" then d == 0 && t == 0
    else if e = "b" then t == 3
    else if e = "c" then (if d == 0 then t == 4 else t == 3)
    else false
  frontdeskStart := fun e d t =>
    if e = "a" then d == 0 && t == 0
    else if e = "c" then (if d == 0 then t == 1 else t == 0)
    else false
  frontdeskStop := fun e d t =>
    if e = "a" then d == 0 && t == 0
    else if e = "c" then (if d == 0 then t == 4 else t == 3)
    else false
  roleStart := fun e d t r =>
    if e = "a" then r == "front_desk" && d == 0 && t == 0
    else if e = "b" then r == "m" && t == 0
    else if e = "c" then r == "front_desk" && (if d == 0 then t == 1 else t == 0)
    else false
  roleStop := fun e d t r =>
    if e = "a" then r == "front_desk" && d == 0 && t == 0
    else if e = "b" then r == "m" && t == 3
    else if e = "c" then r == "front_desk" && (if d == 0 then t == 4 else t == 3)
    else false

def inst1 : ModelInput where
  employees := ["a"]
  qual := fun _ => ["front_desk", "m"]
  targetHours := fun _ => 5
  maxHours := fun _ => 10
  favored := fun _ => false
  departmentRoles := ["m"]
  departmentTargetHours := fun _ => 0
  departmentMaxHours := fun _ => 0
  unavailable := fun _ _ => []
  forcedAssignments := []
  enforceMinDeptBlock := true

def sol1 : Sol where
  work := fun _ _ _ => false
  assign := fun _ _ _ _ => false
  start := fun _ _ _ => false
  stop := fun _ _ _ => false
  frontdeskStart := fun _ _ _ => false
  frontdeskStop := fun _ _ _ => false
  roleStart := fun _ _ _ _ => false
  roleStop := fun _ _ _ _ => false

/-- Validation context for the C6 scenarios: one employee `a` with
`max_hours = 2` (slot limit 4), one department `m`, full availability. -/
def ctx6 : TimesetContext where
  employees := ["a"]
  weeklyHourLimits := fun _ => 2
  unavailable := fun _ _ => []
  departmentRoles := ["m"]

/-- Two 3-slot timesets for `a`: each within the 4-slot limit, cumulatively 6
slots against a limit of 4. -/
def reqs6 : List TimesetRequest :=
  [⟨"a", "Mon", "m", 0, 3⟩, ⟨"a", "Tue", "m", 0, 3⟩]

/-- A single 5-slot timeset for `a`, exceeding the 4-slot limit on its own. -/
def reqs6W : List TimesetRequest := [⟨"a", "Mon", "m", 0, 5⟩]

/-- A single 3-slot timeset for `a`, within the limit. -/
def reqs6V : List TimesetRequest := [⟨"a", "Mon", "m", 0, 3⟩]

/-! ### Work-block counting (claim C3) -/

/-- Slot `t` begins a maximal run of worked slots on `(e, d)`. -/
def isBlockStart (sol : Sol) (e : String) (d t : ℕ) : Bool :=
  sol.work e d t && (t == 0 || !sol.work e d (t - 1))

/-- Number of maximal contiguous runs of worked slots on `(e, d)`: the number
of contiguous intervals making up `{t : work[e,d,t] = 1}`. -/
def workBlockCount (sol : Sol) (e : String) (d : ℕ) : ℕ :=
  (T.filter (fun t => isBlockStart sol e d t)).length

/-- Availability cells with a `1.5` entry at slot 0 (claim C9 scenario). -/
def cells9 : ℕ → Option ℚ := fun t => if t == 0 then some (3 / 2) else none

/-- Staff row whose `target_hours` exceeds `max_hours` (claim C10 scenario). -/
def rowW : StaffRow where
  name := " Zoe "
  roles := ["front_desk"]
  targetHours := some 20
  maxHours := some 10
  year := some 2

/-! ### Helper lemmas -/

theorem filter_length_eq_indicator_sum {α : Type} (p : α → Bool) (l : List α) :
    (l.filter p).length = (l.map fun a => if p a then 1 else 0).sum := by
  induction l with
  | nil => rfl
  | cons a l ih =>
    simp only [List.filter_cons, List.map_cons, List.sum_cons]
    by_cases h : p a = true
    · rw [if_pos h, if_pos h, List.length_cons, ih]
      omega
    · rw [if_neg h, if_neg h, ih]
      omega

theorem countP_le_indicator_sum {α : Type} (p q : α → Bool) (l : List α)
    (h : ∀ a ∈ l, p a = true → q a = true) :
    (l.filter p).length ≤ (l.map fun a => if q a then 1 else 0).sum := by
  induction l with
  | nil => simp
  | cons a l ih =>
    have ih2 := ih fun x hx hp => h x (List.mem_cons_of_mem _ hx) hp
    simp only [List.filter_cons, List.map_cons, List.sum_cons]
    by_cases hp : p a = true
    · have hq := h a (List.mem_cons_self a l) hp
      rw [if_pos hp, if_pos hq, List.length_cons]
      omega
    · rw [if_neg hp]
      by_cases hq : q a = true
      · rw [if_pos hq]; omega
      · rw [if_neg hq]; omega

theorem blockStart_implies_start (inst : ModelInput) (sol : Sol)
    (hC : ContiguityConstraints inst sol) (e : String) (he : e ∈ inst.employees)
    (d : ℕ) (hd : d ∈ days) :
    ∀ t ∈ T, isBlockStart sol e d t = true → sol.start e d t = true := by
  obtain ⟨-, -, -, h0, htrans, -⟩ := hC e he d hd
  intro t ht hbs
  rw [isBlockStart, Bool.and_eq_true, Bool.or_eq_true] at hbs
  obtain ⟨hw, hprev⟩ := hbs
  by_cases ht0 : t = 0
  · subst ht0; rw [← h0]; exact hw
  · have hpf : sol.work e d (t - 1) = false := by
      rcases hprev with h00 | hp
      · exact absurd (by simpa using h00) ht0
      · simpa using hp
    have ht18 : t < 18 := by simpa [T] using ht
    have heq := htrans t (by rw [List.mem_range'_1]; omega)
    rw [hw, hpf] at heq
    cases hs : sol.start e d t <;> cases hp : sol.stop e d (t - 1) <;>
      rw [hs, hp] at heq <;> simp [b2i] at heq

/-! ### Claim theorems -/

/-- C1: in every feasible solution, every `(e, d, t)` has at most one active
materialized `assign` variable, `work[e,d,t]` equals the sum of the
materialized `assign[e,d,t,r]`, and `work[e,d,t] = 0` when no `assign`
variable is materialized at the slot. -/
theorem c1_role_exclusivity (inst : ModelInput) (sol : Sol)
    (h : SatisfiesHard inst sol) :
    ∀ e ∈ inst.employees, ∀ d ∈ days, ∀ t ∈ T,
      (activeAssignedRoles inst sol e d t).length ≤ 1 ∧
      (if sol.work e d t then 1 else 0) = matAssignSum inst sol e d t ∧
      (rolesAtSlot inst e d t = [] → sol.work e d t = false) := by
  obtain ⟨-, -, -, -, -, hR, -⟩ := h
  intro e he d hd t ht
  obtain ⟨h1, h2, h3, h4, h5⟩ := hR e he d hd t ht
  by_cases hemp : rolesAtSlot inst e d t = []
  · have hw := h4 hemp
    refine ⟨?_, ?_, fun _ => hw⟩
    · rw [activeAssignedRoles, hemp]; simp
    · rw [matAssignSum, hemp, hw]; simp
  · have hsum := h3 hemp
    have hlen : (activeAssignedRoles inst sol e d t).length =
        matAssignSum inst sol e d t := by
      rw [activeAssignedRoles, matAssignSum]
      exact filter_length_eq_indicator_sum _ _
    refine ⟨?_, hsum.symm, fun hc => absurd hc hemp⟩
    rw [hlen, hsum]
    cases sol.work e d t <;> simp

/-- C3: in every feasible solution, each `(e, d)` works a union of at most
one contiguous interval of slots, at most two, with two possible only when
the timeset forcing set contains non-contiguous forced slots on `(e, d)`. -/
theorem c3_contiguity (inst : ModelInput) (sol : Sol)
    (h : SatisfiesHard inst sol) :
    ∀ e ∈ inst.employees, ∀ d ∈ days,
      workBlockCount sol e d ≤ 2 ∧
      (forcedDayHasGap inst e d = false → workBlockCount sol e d ≤ 1) := by
  obtain ⟨-, hC, -⟩ := h
  intro e he d hd
  have hmono : workBlockCount sol e d ≤ startCount sol e d :=
    countP_le_indicator_sum _ _ T (blockStart_implies_start inst sol hC e he d hd)
  have hcap := (hC e he d hd).1
  have hle : workBlockCount sol e d ≤ effectiveMaxShifts inst e d :=
    le_trans hmono hcap
  constructor
  · refine le_trans hle ?_
    rw [effectiveMaxShifts]
    by_cases hg : forcedDayHasGap inst e d = true <;> simp [hg]
  · intro hng
    rwa [effectiveMaxShifts, hng, if_neg (by simp)] at hle

/-- C4: in every feasible solution and on every `(e, d)` with daily slot
count `L`: `L ≠ 1` unless the day carries a timeset forcing; `L ∉ {2, 3}`
for non-favored employees without a forcing; when `L > 0` and there is no
forcing, `L` is at least the applicable minimum; and `L` never exceeds the
maximum of the standard daily cap and the forced slot count. -/
theorem c4_shift_length (inst : ModelInput) (sol : Sol)
    (h : SatisfiesHard inst sol) :
    ∀ e ∈ inst.employees, ∀ d ∈ days,
      (forcedEmployeeDay inst e d = false → daySlots sol e d ≠ 1) ∧
      (inst.favored e = false → forcedEmployeeDay inst e d = false →
        daySlots sol e d ≠ 2 ∧ daySlots sol e d ≠ 3) ∧
      (0 < daySlots sol e d → forcedEmployeeDay inst e d = false →
        minSlotsToday inst e ≤ daySlots sol e d) ∧
      daySlots sol e d ≤ maxSlotsToday inst e d := by
  obtain ⟨-, -, hS, -⟩ := h
  intro e he d hd
  obtain ⟨hmin, hmax, hne⟩ := hS e he d hd
  refine ⟨fun hf => (hne hf).1, fun hfav hf => (hne hf).2 hfav,
    fun hpos hf => ?_, hmax⟩
  rcases hmin hf with h0 | hge
  · omega
  · exact hge

/-- C5: in every feasible solution, every department's effective units,
`2 · (focused assigned slots) + (front-desk slots of employees whose primary
department is the department)`, stay within `4 · max_r`. -/
theorem c5_department_max (inst : ModelInput) (sol : Sol)
    (h : SatisfiesHard inst sol) :
    ∀ r ∈ inst.departmentRoles,
      2 * departmentAssignments inst sol r + dualFrontDeskSlots inst sol r ≤
        4 * inst.departmentMaxHours r := by
  obtain ⟨-, -, -, -, -, -, -, -, -, -, hDm, -⟩ := h
  intro r hr
  have := hDm r hr
  rwa [departmentEffectiveUnits, departmentMaxUnits] at this

theorem totalForcedDeptSlots_pos_nonempty (inst : ModelInput)
    (h : 1 ≤ totalForcedDeptSlots inst) : inst.forcedAssignments ≠ [] := by
  intro hnil
  rw [totalForcedDeptSlots, hnil] at h
  simp at h

theorem fdQualifiedCount_pos (inst : ModelInput) (e : String)
    (he : e ∈ inst.employees) (hq : FRONT_DESK_ROLE ∈ inst.qual e) :
    1 ≤ fdQualifiedCount inst := by
  have hmem : e ∈ inst.employees.filter
      (fun x => decide (FRONT_DESK_ROLE ∈ inst.qual x)) :=
    List.mem_filter.mpr ⟨he, by simpa using hq⟩
  have := List.ne_nil_of_mem hmem
  rw [fdQualifiedCount]
  exact List.length_pos.mpr this

theorem claimAmended_le_code (inst : ModelInput) (e : String)
    (he : e ∈ inst.employees) :
    claimFeasibleLowerAmended inst e ≤ (relaxedFeasibleLowerSlots inst e : ℤ) := by
  rw [claimFeasibleLowerAmended, relaxedFeasibleLowerSlots, reductionSlots]
  by_cases h30 : 30 ≤ totalForcedDeptSlots inst
  · simp only [if_pos h30]
    exact Int.natCast_nonneg _
  · simp only [if_neg h30]
    by_cases h4 : 4 ≤ totalForcedDeptSlots inst
    · have hne : inst.forcedAssignments ≠ [] :=
        totalForcedDeptSlots_pos_nonempty inst (by omega)
      simp only [if_pos h4]
      have hcase : baseFeasibleLowerSlots inst e = 0 ∨
          (inst.forcedAssignments ≠ [] ∧ 0 < baseFeasibleLowerSlots inst e) := by
        rcases Nat.eq_zero_or_pos (baseFeasibleLowerSlots inst e) with h | h
        · exact Or.inl h
        · exact Or.inr ⟨hne, h⟩
      by_cases hfd : FRONT_DESK_ROLE ∈ inst.qual e
      · simp only [if_pos hfd]
        by_cases h20 : 20 ≤ totalForcedDeptSlots inst
        · simp only [if_pos h20]
          rcases hcase with h0 | hg
          · rw [if_neg (by intro hand; omega)]
            omega
          · rw [if_pos hg]
            omega
        · simp only [if_neg h20]
          have hq1 : 1 ≤ fdQualifiedCount inst := fdQualifiedCount_pos inst e he hfd
          have hnum : numFdQualified inst = fdQualifiedCount inst := by
            rw [numFdQualified]; omega
          rw [hnum]
          generalize totalForcedDeptSlots inst / fdQualifiedCount inst = k
          rw [← Nat.cast_min]
          rcases hcase with h0 | hg
          · rw [if_neg (by intro hand; omega)]
            omega
          · rw [if_pos hg]
            omega
      · simp only [if_neg hfd]
        by_cases h20 : 20 ≤ totalForcedDeptSlots inst
        · simp only [if_pos h20]
          rcases hcase with h0 | hg
          · rw [if_neg (by intro hand; omega)]
            omega
          · rw [if_pos hg]
            omega
        · simp only [if_neg h20]
          generalize totalForcedDeptSlots inst / 10 = k
          rw [← Nat.cast_min]
          rcases hcase with h0 | hg
          · rw [if_neg (by intro hand; omega)]
            omega
          · rw [if_pos hg]
            omega
    · simp only [if_neg h4]
      by_cases hg : inst.forcedAssignments ≠ [] ∧ 0 < baseFeasibleLowerSlots inst e
      · rw [if_pos hg]
      · rw [if_neg hg]

/-- C2 (amended): in every feasible solution, each employee's weekly slots
stay within `[claim lower bound with the FD-qualified F ≥ 20 formula read as
max(0, fl − max(0, fl − 2)), feasible_upper]`. -/
theorem c2_target_window_amended (inst : ModelInput) (sol : Sol)
    (h : SatisfiesHard inst sol) :
    ∀ e ∈ inst.employees,
      claimFeasibleLowerAmended inst e ≤ (weekSlots sol e : ℤ) ∧
      weekSlots sol e ≤ feasibleUpperSlots inst e := by
  intro e he
  obtain ⟨-, -, -, -, -, -, -, -, -, -, -, -, hH⟩ := h
  obtain ⟨hlow, hup, -, -⟩ := hH e he
  exact ⟨le_trans (claimAmended_le_code inst e he) (by exact_mod_cast hlow), hup⟩

/-- Witness for C2 (amended) at the one-employee instance. -/
theorem c2_target_window_amended_witness :
    claimFeasibleLowerAmended inst1 "a" ≤ (weekSlots sol1 "a" : ℤ) ∧
    weekSlots sol1 "a" ≤ feasibleUpperSlots inst1 "a" :=
  c2_target_window_amended inst1 sol1 (by decide) "a" (by decide)

set_option maxRecDepth 100000 in
/-- C2 counterexample: `inst0`/`sol0` satisfy every hard constraint family,
yet FD-qualified employee `a` (unrelaxed lower bound 1, 20 forced department
slots) works 1 slot while the claim's literal lower bound
`max(0, fl − (fl − 2)) = 2` demands at least 2. -/
theorem c2_target_window_counterexample :
    SatisfiesHard inst0 sol0 ∧ "a" ∈ inst0.employees ∧
    ¬ claimFeasibleLower inst0 "a" ≤ (weekSlots sol0 "a" : ℤ) :=
  ⟨by decide, by decide, by decide⟩

/-- Witness for C1 at the one-employee instance. -/
theorem c1_role_exclusivity_witness :
    (activeAssignedRoles inst1 sol1 "a" 0 0).length ≤ 1 ∧
    (if sol1.work "a" 0 0 then 1 else 0) = matAssignSum inst1 sol1 "a" 0 0 ∧
    (rolesAtSlot inst1 "a" 0 0 = [] → sol1.work "a" 0 0 = false) :=
  c1_role_exclusivity inst1 sol1 (by decide) "a" (by decide) 0 (by decide) 0 (by decide)

/-- Witness for C3 at the one-employee instance. -/
theorem c3_contiguity_witness :
    workBlockCount sol1 "a" 0 ≤ 2 ∧
    (forcedDayHasGap inst1 "a" 0 = false → workBlockCount sol1 "a" 0 ≤ 1) :=
  c3_contiguity inst1 sol1 (by decide) "a" (by decide) 0 (by decide)

/-- Witness for C4 at the one-employee instance. -/
theorem c4_shift_length_witness :
    (forcedEmployeeDay inst1 "a" 0 = false → daySlots sol1 "a" 0 ≠ 1) ∧
    (inst1.favored "a" = false → forcedEmployeeDay inst1 "a" 0 = false →
      daySlots sol1 "a" 0 ≠ 2 ∧ daySlots sol1 "a" 0 ≠ 3) ∧
    (0 < daySlots sol1 "a" 0 → forcedEmployeeDay inst1 "a" 0 = false →
      minSlotsToday inst1 "a" ≤ daySlots sol1 "a" 0) ∧
    daySlots sol1 "a" 0 ≤ maxSlotsToday inst1 "a" 0 :=
  c4_shift_length inst1 sol1 (by decide) "a" (by decide) 0 (by decide)

/-- Witness for C5 at the one-employee instance. -/
theorem c5_department_max_witness :
    2 * departmentAssignments inst1 sol1 "m" + dualFrontDeskSlots inst1 sol1 "m" ≤
      4 * inst1.departmentMaxHours "m" :=
  c5_department_max inst1 sol1 (by decide) "m" (by decide)

theorem validateTimesetSlots_error_of_exceeds (ctx : TimesetContext)
    (req : TimesetRequest) (employee day roleName : String)
    (hzero : weeklyLimitSlots ctx employee ≠ 0)
    (hlt : weeklyLimitSlots ctx employee < (requestSlotCount req : ℤ)) :
    ∃ err, validateTimesetSlots ctx req employee day roleName = .error err := by
  rw [validateTimesetSlots]
  split_ifs with h1 h2 h3
  · exact ⟨_, rfl⟩
  · exact ⟨_, rfl⟩
  · exact ⟨_, rfl⟩
  · exfalso
    apply h3
    refine ⟨hzero, ?_⟩
    rwa [List.length_range']

theorem validateTimeset_error_of_exceeds (ctx : TimesetContext)
    (req : TimesetRequest) (hx : requestExceedsLimit ctx req = true) :
    ∃ err, validateTimeset ctx req = .error err := by
  rw [requestExceedsLimit] at hx
  rw [validateTimeset]
  split
  · next heq =>
    rw [resolvedEmployee, heq] at hx
    cases hx
  · next employee heq =>
    rw [resolvedEmployee, heq, Bool.and_eq_true, decide_eq_true_eq,
      decide_eq_true_eq] at hx
    obtain ⟨hzero, hlt⟩ := hx
    split
    · exact ⟨_, rfl⟩
    · split
      · split
        · exact validateTimesetSlots_error_of_exceeds ctx req employee _ _ hzero hlt
        · exact ⟨_, rfl⟩
      · exact validateTimesetSlots_error_of_exceeds ctx req employee _ _ hzero hlt

theorem validateTimesets_fails_of_exceeds (ctx : TimesetContext)
    (reqs : List TimesetRequest)
    (hx : ∃ req ∈ reqs, requestExceedsLimit ctx req = true) :
    (validateTimesets ctx reqs).isOk = false := by
  induction reqs with
  | nil => simp at hx
  | cons r rest ih =>
    rw [validateTimesets]
    obtain ⟨req, hmem, hexc⟩ := hx
    cases hv : validateTimeset ctx r with
    | error err => rfl
    | ok forced =>
      rcases List.mem_cons.mp hmem with heq | hmem2
      · subst heq
        obtain ⟨err, herr⟩ := validateTimeset_error_of_exceeds ctx req hexc
        rw [hv] at herr
        cases herr
      · cases hrest : validateTimesets ctx rest with
        | error err => rfl
        | ok rf =>
          have hfalse := ih ⟨req, hmem2, hexc⟩
          rw [hrest] at hfalse
          cases hfalse

theorem validateTimesetSlots_duration (ctx : TimesetContext) (req : TimesetRequest)
    (employee day roleName : String) (err : TimesetError)
    (h : validateTimesetSlots ctx req employee day roleName = .error err)
    (hdur : isDurationError err = true) :
    weeklyLimitSlots ctx employee ≠ 0 ∧
      weeklyLimitSlots ctx employee < (requestSlotCount req : ℤ) := by
  rw [validateTimesetSlots] at h
  split_ifs at h with h1 h2 h3
  · injection h with h
    subst h
    cases hdur
  · injection h with h
    subst h
    cases hdur
  · obtain ⟨hz, hl⟩ := h3
    rw [List.length_range'] at hl
    exact ⟨hz, hl⟩

theorem validateTimeset_duration_error (ctx : TimesetContext)
    (req : TimesetRequest) (err : TimesetError)
    (h : validateTimeset ctx req = .error err) (hdur : isDurationError err = true) :
    requestExceedsLimit ctx req = true := by
  rw [validateTimeset] at h
  split at h
  · injection h with h
    subst h
    cases hdur
  · next employee hemp =>
    split at h
    · injection h with h
      subst h
      cases hdur
    · split at h
      · split_ifs at h
        · have := validateTimesetSlots_duration ctx req employee _ _ err h hdur
          rw [requestExceedsLimit, resolvedEmployee, hemp]
          simp only [Bool.and_eq_true, decide_eq_true_eq]
          exact this
        · injection h with h
          subst h
          cases hdur
      · have := validateTimesetSlots_duration ctx req employee _ _ err h hdur
        rw [requestExceedsLimit, resolvedEmployee, hemp]
        simp only [Bool.and_eq_true, decide_eq_true_eq]
        exact this

theorem validateTimesets_no_duration_error (ctx : TimesetContext)
    (reqs : List TimesetRequest)
    (hpt : ∀ req ∈ reqs, ∀ e, resolvedEmployee ctx req = some e →
      (requestSlotCount req : ℤ) ≤ weeklyLimitSlots ctx e) :
    ∀ err, validateTimesets ctx reqs = .error err → isDurationError err = false := by
  induction reqs with
  | nil =>
    intro err h
    rw [validateTimesets] at h
    cases h
  | cons r rest ih =>
    intro err h
    rw [validateTimesets] at h
    cases hv : validateTimeset ctx r with
    | error err0 =>
      rw [hv] at h
      injection h with h
      subst h
      by_contra hdur
      rw [Bool.not_eq_false] at hdur
      have hex := validateTimeset_duration_error ctx r err0 hv hdur
      rw [requestExceedsLimit] at hex
      cases hres : resolvedEmployee ctx r with
      | none => rw [hres] at hex; cases hex
      | some e =>
        rw [hres, Bool.and_eq_true, decide_eq_true_eq, decide_eq_true_eq] at hex
        have hle := hpt r (List.mem_cons_self r rest) e hres
        omega
    | ok forced =>
      rw [hv] at h
      cases hrest : validateTimesets ctx rest with
      | error err0 =>
        rw [hrest] at h
        injection h with h
        subst h
        exact ih (fun req hmem e hres => hpt req (List.mem_cons_of_mem r hmem) e hres)
          err0 hrest
      | ok rf =>
        rw [hrest] at h
        cases h

/-- C6 (amended): timeset validation checks each request's own duration, not
the cumulative load: (1) validation fails whenever some single request
resolves to an employee and exceeds that employee's nonzero slot limit; (2)
when every request's employee stays cumulatively within the limit, no
request is rejected on duration grounds. -/
theorem c6_timeset_duration_amended (ctx : TimesetContext)
    (reqs : List TimesetRequest) :
    ((∃ req ∈ reqs, requestExceedsLimit ctx req = true) →
      (validateTimesets ctx reqs).isOk = false) ∧
    ((∀ req ∈ reqs, requestCumulativeOk ctx reqs req = true) →
      ∀ err, validateTimesets ctx reqs = .error err → isDurationError err = false) := by
  constructor
  · exact validateTimesets_fails_of_exceeds ctx reqs
  · intro hcum
    apply validateTimesets_no_duration_error
    intro req hmem e hres
    have h2 := hcum req hmem
    rw [requestCumulativeOk] at h2
    split at h2
    · next e2 heq =>
      rw [hres] at heq
      injection heq with heq
      subst heq
      rw [decide_eq_true_eq] at h2
      have hc : requestSlotCount req ≤ cumulativeTimesetSlots ctx reqs e := by
        apply List.single_le_sum (fun x _ => Nat.zero_le x)
        exact List.mem_map_of_mem _
          (List.mem_filter.mpr ⟨hmem, by simp [hres]⟩)
      omega
    · next heq =>
      rw [hres] at heq
      cases heq

set_option maxRecDepth 10000 in
/-- C6 counterexample: employee `a` has a 4-slot limit and two 3-slot
timesets, so the cumulative load 6 exceeds the nonzero limit, yet validation
succeeds: only each request's own duration is checked. -/
theorem c6_timeset_duration_counterexample :
    weeklyLimitSlots ctx6 "a" ≠ 0 ∧
    weeklyLimitSlots ctx6 "a" < (cumulativeTimesetSlots ctx6 reqs6 "a" : ℤ) ∧
    (validateTimesets ctx6 reqs6).isOk = true := by
  refine ⟨by decide, by decide, by decide⟩

set_option maxRecDepth 10000 in
/-- Witness for C6 (amended): a single 5-slot request against a 4-slot limit
is rejected, and with a single 3-slot request (cumulatively within the
limit) no duration error is possible. -/
theorem c6_timeset_duration_amended_witness :
    (validateTimesets ctx6 reqs6W).isOk = false ∧
    (∀ err, validateTimesets ctx6 reqs6V = .error err → isDurationError err = false) :=
  ⟨(c6_timeset_duration_amended ctx6 reqs6W).1 (by decide),
   (c6_timeset_duration_amended ctx6 reqs6V).2 (by decide)⟩

theorem pyRound_intCast (n : ℤ) : pyRound ((n : ℚ)) = n := by
  rw [pyRound, ratFloor]
  have hnum : ((n : ℚ)).num = n := Rat.intCast_num n
  have hden : ((n : ℚ)).den = 1 := Rat.intCast_den n
  rw [hnum, hden]
  simp only [Nat.cast_one, Int.fdiv_one]
  norm_num

/-- C7 counterexample: for targets of 4 hours each, `m = 8` and the code's
`int(round(8 · 0.35)) = round(2.8) = 3` yields goal 3, while the claim's
`⌊2.8⌋ = 2` yields goal 2. -/
theorem c7_training_goal_counterexample :
    trainingGoalSlots 4 4 = 3 ∧ claimTrainingGoalSlots 4 4 = 2 ∧
    trainingGoalSlots 4 4 ≠ claimTrainingGoalSlots 4 4 :=
  ⟨by decide, by decide, by decide⟩

/-- C7 (amended): for integer-hour targets `a`, `b` with `m = 2 · min(a,b)`,
the derived goal is `clamp(round(0.35 · m), TRAINING_MIN_SLOTS, m)` with
Python's round-half-to-even (`0.35 · m = 7 · min(a,b) / 10`), not a floor;
when `m = 0` the goal is 0. -/
theorem c7_training_goal_amended (a b : ℕ) :
    trainingGoalSlots a b =
      (if 0 < min a b then
        min (max TRAINING_MIN_SLOTS (pyRound (7 * (min a b : ℚ) / 10)))
          (2 * (min a b : ℤ))
      else 0) := by
  rw [trainingGoalSlots]
  have hmin : (min (a : ℚ) (b : ℚ)) = ((min a b : ℕ) : ℚ) := by
    rw [Nat.cast_min]
  have h1 : ((min a b : ℕ) : ℚ) * 2 = (((2 * min a b : ℕ) : ℤ) : ℚ) := by
    push_cast; ring
  rw [hmin, h1, pyRound_intCast]
  have h2 : (0 < ((2 * min a b : ℕ) : ℤ)) ↔ 0 < min a b := by
    rw [Int.natCast_pos]; omega
  have h3 : ((((2 * min a b : ℕ) : ℤ)) : ℚ) * TRAINING_TARGET_FRACTION =
      7 * (min a b : ℚ) / 10 := by
    rw [TRAINING_TARGET_FRACTION]; push_cast; ring
  have h4 : (((2 * min a b : ℕ) : ℤ)) = 2 * (min a b : ℤ) := by push_cast; ring
  rw [h3, h4, Nat.cast_min]
  refine if_congr ?_ rfl rfl
  rw [← h4, h2]

/-- C8: the objective's favored-hours term credits
`FAVORED_HOURS_BONUS_WEIGHT · int(mult · 10) = 2000` per worked slot at
`mult = 1`, ten times the `200 · ⌊10 · mult⌋ / 10 = 200` stated by the spec
table and by the config comment on `FAVORED_HOURS_BONUS_WEIGHT`. -/
theorem c8_favored_hours_coefficient :
    favoredHoursObjectiveContribution 1 1 = 2000 ∧
    claimFavoredHoursPerSlot 1 = 200 ∧
    (favoredHoursObjectiveContribution 1 1 : ℚ) ≠ claimFavoredHoursPerSlot 1 :=
  ⟨by decide, by decide, by decide⟩

/-- C9 counterexample: a cell holding `1.5` is not the value `1`, yet the
loader (`int(float(value)) == 1`) treats the slot as available. -/
theorem c9_availability_cell_counterexample :
    (0 ∉ unavailableSlotsForDay cells9) ∧ cells9 0 ≠ some 1 := by
  refine ⟨by decide, by decide⟩

/-- C9 (amended): a slot is marked unavailable iff its cell does not parse
to a number truncating to 1; equivalently, a slot is available iff the cell
parses as a number `x` with `int(x) = 1` (any `x ∈ [1, 2)`), not only `x = 1`. -/
theorem c9_availability_cell_amended (cells : ℕ → Option ℚ) (t : ℕ) :
    t ∈ unavailableSlotsForDay cells ↔
      t < 18 ∧ ∀ x : ℚ, cells t = some x → pyTrunc x ≠ 1 := by
  rw [unavailableSlotsForDay, List.mem_filter, List.mem_range]
  cases hc : cells t with
  | none => simp [canWorkCell, hc]
  | some x => simp [canWorkCell, hc]

/-- C10: a staff row with numeric `target_hours` and `max_hours` (and
otherwise valid fields) is never rejected for `target > max`; the loader
stores `min(target, max)`, so every loaded employee satisfies
`target ≤ max`. -/
theorem c10_target_clamped (seen : List String) (row : StaffRow)
    (target maxH year : ℚ) (ht : row.targetHours = some target)
    (hm : row.maxHours = some maxH) (hy : row.year = some year)
    (hname : ¬ pyStrip row.name = "") (hdup : pyStrip row.name ∉ seen)
    (hroles : row.roles ≠ []) :
    processStaffRow seen row =
      .ok (pyStrip row.name, row.roles, min target maxH, maxH, pyTrunc year) ∧
    min target maxH ≤ maxH := by
  refine ⟨?_, min_le_right _ _⟩
  rw [processStaffRow]
  simp only [hname, hdup, hroles, ht, hm, hy, if_neg, if_false]

/-- Witness for C10: a row with `target_hours = 20 > max_hours = 10` is
accepted and stored with target 10. -/
theorem c10_target_clamped_witness :
    processStaffRow [] rowW =
      .ok (pyStrip rowW.name, rowW.roles, min (20 : ℚ) 10, 10, pyTrunc 2) ∧
    min (20 : ℚ) 10 ≤ 10 :=
  c10_target_clamped [] rowW 20 10 2 rfl rfl rfl (by decide) (by decide) (by decide)
